import Mathlib

/-!
# TigerFans — verification of the accounting and fulfillment pipeline

A shallow embedding of the core of the `tigerfans` ticket-sale service:

* the relational accounting backend (`tigerfans/model/accounting/_postgres.py`):
  resources with capacities, holds with `pending`/`posted`/`voided` status and
  an expiry timestamp, and the operations `hold_tickets` (reserve),
  `commit_order` (post), `cancel_order` (void) and `book_immediately`
  (fast-book);
* the checkout and webhook HTTP handlers (`tigerfans/server.py`);
* the payment-session store with its combined fulfillment/event-idempotency
  gate, in both the Redis and the PostgreSQL variant
  (`tigerfans/model/paymentsession/_redis.py`, `_postgres.py`);
* the result-distribution logic of the ledger transfer batcher
  (`tigerfans/model/accounting/_tigerbeetle.py`).

Timestamps are `float` epoch seconds in the source; only ordering and the
addition of a timeout are ever used, so they are modelled as `Int`.
SQL `BIGSERIAL` ids are modelled by a `next_id` counter in the state.
Fallible code (SQL statements raising on an unknown resource, `ValueError` on
a bad ticket class) is modelled with `Option`; a `none` result of a whole
operation corresponds to the exception propagating and the enclosing
transaction rolling back, leaving the store unchanged.
-/

namespace TigerFans

/-- Resource names, rows of the `resources` table
(`RES_CLASS_A`, `RES_CLASS_B`, `RES_GOODIE` in `_postgres.py`). -/
def RES_CLASS_A : String := "class_a"

def RES_CLASS_B : String := "class_b"

def RES_GOODIE : String := "goodie"

/-- Hold status (`status IN ('pending','posted','voided')`). -/
inductive HStatus where
  | pending
  | posted
  | voided
deriving DecidableEq, Repr

/-- A row of the `holds` table. -/
structure Hold where
  id : Nat
  resource : String
  qty : Nat
  status : HStatus
  expires_at : Option Int
  created_at : Int
deriving DecidableEq, Repr

/-- The relational accounting store: the `resources` table (name, capacity),
the `holds` table, and the `BIGSERIAL` id counter. -/
structure AcctState where
  resources : List (String × Nat)
  holds : List Hold
  next_id : Nat
deriving DecidableEq, Repr

/-- Capacity of a resource (`SELECT capacity FROM resources WHERE name=:r`). -/
def capacityOf (s : AcctState) (r : String) : Option Nat :=
  (s.resources.find? (fun p => p.1 = r)).map (fun p => p.2)

/-- `expires_at IS NULL OR expires_at > :now`. -/
def liveAt (now : Int) (e : Option Int) : Bool :=
  match e with
  | none => true
  | some t => now < t

/-- `SUM(qty) WHERE resource=:r AND status='posted'`. -/
def soldSum (s : AcctState) (r : String) : Nat :=
  ((s.holds.filter
      (fun h => h.status = HStatus.posted ∧ h.resource = r)).map
    (fun h => h.qty)).sum

/-- `SUM(qty) WHERE resource=:r AND status='pending' AND (expires_at IS NULL
OR expires_at > :now)`. -/
def heldSum (s : AcctState) (r : String) (now : Int) : Nat :=
  ((s.holds.filter
      (fun h => h.status = HStatus.pending ∧ h.resource = r ∧
        liveAt now h.expires_at)).map
    (fun h => h.qty)).sum

/-- Result of `_available_units`: the dict
`{sold, held, available, capacity}`; `available = capacity - sold - held`
can be negative, hence `Int`. -/
structure Avail where
  sold : Nat
  held : Nat
  available : Int
  capacity : Nat
deriving DecidableEq, Repr

/-- `_available_units(db, resource, now_ts)`; `none` models the
`RuntimeError` raised for an unknown resource. -/
def availableUnits (s : AcctState) (r : String) (now : Int) : Option Avail :=
  match capacityOf s r with
  | none => none
  | some cap =>
    some { sold := soldSum s r
           held := heldSum s r now
           available := (cap : Int) - soldSum s r - heldSum s r now
           capacity := cap }

/-- `expires_at = now_ts + timeout_seconds if timeout_seconds and
timeout_seconds > 0 else None` (Python truthiness: `None` and `0` are
falsy). -/
def expiryOf (timeout : Option Int) (now : Int) : Option Int :=
  match timeout with
  | none => none
  | some t => if 0 < t then some (now + t) else none

/-- `_insert_hold_if_capacity(db, resource, qty, timeout_seconds)` at clock
value `now`: insert a `pending` hold iff capacity remains; the inner
`Option Nat` is the returned hold id (`None` = not enough capacity), the
outer `Option` models the unknown-resource exception. -/
def insertHoldIfCapacity (s : AcctState) (r : String) (qty : Nat)
    (timeout : Option Int) (now : Int) : Option (Option Nat × AcctState) :=
  match availableUnits s r now with
  | none => none
  | some av =>
    if av.available < (qty : Int) then
      some (none, s)
    else
      some (some s.next_id,
        { s with
          holds := s.holds ++
            [{ id := s.next_id, resource := r, qty := qty,
               status := HStatus.pending, expires_at := expiryOf timeout now,
               created_at := now }]
          next_id := s.next_id + 1 })

/-- `hold_tickets(db, ticket_class, qty, timeout_seconds)`: two pending
inserts (ticket class, then goodie with qty 1) in one transaction.  Each
insert reads the clock separately (`now1`, `now2`).  `none` models the
`ValueError` for a bad class or an unknown resource; the transaction then
rolls back, so no partial state is observable.  The returned ids mirror
`(str(id) or "0", …, has_ticket, has_goodie)` with `none` standing for the
`"0"` sentinel. -/
def hold_tickets (s : AcctState) (ticket_class : String) (qty : Nat)
    (timeout : Option Int) (now1 now2 : Int) :
    Option ((Option Nat × Option Nat × Bool × Bool) × AcctState) :=
  if ticket_class ≠ ("A") ∧ ticket_class ≠ ("B") then none
  else
    match insertHoldIfCapacity s
        (if ticket_class = ("A") then RES_CLASS_A else RES_CLASS_B)
        qty timeout now1 with
    | none => none
    | some (tid, s1) =>
      match insertHoldIfCapacity s1 RES_GOODIE 1 timeout now2 with
      | none => none
      | some (gid, s2) =>
        some ((tid, gid, tid.isSome, gid.isSome), s2)

/-- The conditional `UPDATE holds SET status='posted', expires_at=NULL WHERE
id=:id AND status='pending' AND (expires_at IS NULL OR expires_at > :now)`;
the `Bool` is `RETURNING id … first() is not None` (at least one row
updated). -/
def postOne (s : AcctState) (hid : Nat) (now : Int) : Bool × AcctState :=
  let hit := fun (h : Hold) =>
    h.id = hid ∧ h.status = HStatus.pending ∧ liveAt now h.expires_at = true
  (decide (∃ h ∈ s.holds, hit h),
   { s with holds := s.holds.map (fun h =>
       if hit h then
         { h with status := HStatus.posted, expires_at := none }
       else h) })

/-- `if th is not None: … gets_ticket = row is not None` — the id is only
posted when present, otherwise the flag stays `False` and nothing runs. -/
def optPost (s : AcctState) (t : Option Nat) (now : Int) : Bool × AcctState :=
  match t with
  | none => (false, s)
  | some i => postOne s i now

/-- `commit_order(db, ticket_hold_id, goodie_hold_id, …, try_goodie)`.
Ids arrive normalized: `none` stands for Python `None` or the `"0"`
sentinel.  The goodie id is only used when `try_goodie` holds (`gh =
_as_int(goodie_hold_id) if try_goodie and … else None`).  Returns
`(gets_ticket, gets_goodie)` and the updated store. -/
def commit_order (s : AcctState) (ticket_hold_id goodie_hold_id : Option Nat)
    (try_goodie : Bool) (now : Int) : (Bool × Bool) × AcctState :=
  let gh := if try_goodie then goodie_hold_id else none
  let step1 := optPost s ticket_hold_id now
  let step2 := optPost step1.2 gh now
  ((step1.1, step2.1), step2.2)

/-- The conditional `UPDATE holds SET status='voided' WHERE id = ANY(:ids)
AND status='pending' AND (expires_at IS NULL OR expires_at > :now)`. -/
def voidAny (s : AcctState) (ids : List Nat) (now : Int) : AcctState :=
  { s with holds := s.holds.map (fun h =>
      if h.id ∈ ids ∧ h.status = HStatus.pending ∧ liveAt now h.expires_at then
        { h with status := HStatus.voided }
      else h) }

/-- `cancel_order(db, ticket_hold_id, goodie_hold_id, …)`: void the pending
holds, best effort; ids are normalized as in `commit_order`. -/
def cancel_order (s : AcctState) (ticket_hold_id goodie_hold_id : Option Nat)
    (now : Int) : AcctState :=
  if ticket_hold_id.toList ++ goodie_hold_id.toList = [] then s
  else voidAny s (ticket_hold_id.toList ++ goodie_hold_id.toList) now

/-- `cancel_only_goodie(db, goodie_hold_id, …)`. -/
def cancel_only_goodie (s : AcctState) (goodie_hold_id : Option Nat)
    (now : Int) : AcctState :=
  if goodie_hold_id.toList = [] then s
  else voidAny s goodie_hold_id.toList now

/-- One step of `book_immediately`: read `_available_units` and, if
`avail["available"] >= q`, insert a row directly with `status='posted'` and
no expiry.  The outer `Option` models the unknown-resource exception. -/
def insertPostedIfAvail (s : AcctState) (r : String) (q : Nat) (now : Int) :
    Option (Option Nat × AcctState) :=
  match availableUnits s r now with
  | none => none
  | some av =>
    if (q : Int) ≤ av.available then
      some (some s.next_id,
        { s with
          holds := s.holds ++
            [{ id := s.next_id, resource := r, qty := q,
               status := HStatus.posted, expires_at := none,
               created_at := now }]
          next_id := s.next_id + 1 })
    else some (none, s)

/-- `book_immediately(db, ticket_class, qty)`: direct `posted` inserts (no
pending step) for the ticket and, capacity permitting, the goodie (qty 1),
in one transaction at a single clock reading. -/
def book_immediately (s : AcctState) (ticket_class : String) (qty : Nat)
    (now : Int) :
    Option ((Option Nat × Option Nat × Bool × Bool) × AcctState) :=
  if ticket_class ≠ ("A") ∧ ticket_class ≠ ("B") then none
  else
    match insertPostedIfAvail s
        (if ticket_class = ("A") then RES_CLASS_A else RES_CLASS_B)
        qty now with
    | none => none
    | some (tid, s1) =>
      match insertPostedIfAvail s1 RES_GOODIE 1 now with
      | none => none
      | some (gid, s2) =>
        some ((tid, gid, tid.isSome, gid.isSome), s2)

/-- The per-resource capacity invariant, at clock value `now`:
`posted(R) + live_pending(R) ≤ capacity(R)` for every resource. -/
def Inv (s : AcctState) (now : Int) : Prop :=
  ∀ r cap, capacityOf s r = some cap → soldSum s r + heldSum s r now ≤ cap

/-! ## Sum bookkeeping for the capacity invariant -/

/-- The contribution of a single hold to `posted(r) + live_pending(r)`. -/
def contrib (r : String) (now : Int) (h : Hold) : Nat :=
  (if h.status = HStatus.posted ∧ h.resource = r then h.qty else 0) +
  (if h.status = HStatus.pending ∧ h.resource = r ∧ liveAt now h.expires_at
   then h.qty else 0)

/-- The capacities seeded by `ensure_schema_and_fixtures`, scaled down to
demo size for concrete witnesses. -/
def demoResources : List (String × Nat) :=
  [(RES_CLASS_A, 2), (RES_CLASS_B, 1), (RES_GOODIE, 1)]

/-- The counterexample state for C3: one `class_a` hold reserved at time 0
with a 300 s timeout, i.e. the store produced by
`_insert_hold_if_capacity` on a fresh store of capacity 1. -/
def cexReservedState : AcctState :=
  { resources := [(RES_CLASS_A, 1)]
    holds := [{ id := 0, resource := RES_CLASS_A, qty := 1,
                status := HStatus.pending, expires_at := some 300,
                created_at := 0 }]
    next_id := 1 }

/-! ## The HTTP handlers (`tigerfans/server.py`, SQL path)

The checkout and webhook handlers act on the durable SQL database (tables
`orders`, `payment_sessions`, `fulfillment_keys`, `webhook_events_seen`
from `model/db.py`).  The external accounting ledger is reached through
`tigerfans.model.tigerbeetledb`; its results enter the handler embeddings
as explicit arguments (an oracle for the awaited ledger calls), since the
claims about the handlers concern only their control flow and their writes
to the durable database. -/

/-- Python `\s` as used by `is_valid_email`'s pattern. -/
def isPyWs (c : Char) : Bool :=
  c = ' ' ∨ c = '\t' ∨ c = '\n' ∨ c = '\r' ∨ c = '\x0b' ∨ c = '\x0c'

/-- A character admitted by the `[^@\s]` class. -/
def isEmailChar (c : Char) : Bool := ¬(c = '@' ∨ isPyWs c = true)

/-- Python `str.strip()`. -/
def pyStrip (cs : List Char) : List Char :=
  ((cs.dropWhile isPyWs).reverse.dropWhile isPyWs).reverse

/-- A dot that is neither the first nor the last character. -/
def hasInteriorDot (cs : List Char) : Bool :=
  cs.enum.any (fun p => p.2 = '.' ∧ 0 < p.1 ∧ p.1 + 1 < cs.length)

/-- `is_valid_email` (`helpers.py`): empty is rejected; otherwise the
stripped string must match `^[^@\s]+@[^@\s]+\.[^@\s]+$`, i.e. decompose as
`local@domain` with a non-empty local part, exactly one `@`, no whitespace,
and a dot strictly inside the domain part. -/
def is_valid_email (email : String) : Bool :=
  if email.isEmpty then false
  else
    match (pyStrip email.toList).splitOn '@' with
    | [a, r] =>
      decide (a ≠ []) && a.all isEmailChar && r.all isEmailChar &&
        hasInteriorDot r
    | _ => false

/-- `TICKET_CLASSES = \x7b"A": 6500, "B": 3500\x7d` (price in cents). -/
def ticketPrice (cls : String) : Option Nat :=
  if cls = ("A") then some 6500
  else if cls = ("B") then some 3500
  else none

/-- A row of the durable `orders` table (`model/db.py`, class `Order`). -/
structure OrderRow where
  id : String
  tb_transfer_id : String
  goodie_tb_transfer_id : String
  try_goodie : Bool
  cls : String
  qty : Nat
  amount : Nat
  currency : String
  customer_email : String
  status : String
  created_at : Int
  paid_at : Option Int
  ticket_code : Option String
  got_goodie : Bool
deriving DecidableEq, Repr

/-- A row of `payment_sessions` (`model/db.py`, class `PaymentSession`). -/
structure SessionRow where
  id : String
  order_id : String
  amount : Nat
  currency : String
  created_at : Int
deriving DecidableEq, Repr

/-- The durable SQL database as touched by the handlers: `orders`,
`payment_sessions`, the `fulfillment_keys` PKs and the
`webhook_events_seen` PKs. -/
structure SrvDb where
  orders : List OrderRow
  sessions : List SessionRow
  fulfillKeys : List String
  eventsSeen : List String
deriving DecidableEq, Repr

/-- An HTTP outcome of a handler: a raised `HTTPException`, an uncaught
exception (which the framework surfaces as a 500 response), or a checkout
success body. -/
inductive HttpReply where
  | httpError (status : Nat) (detail : String)
  | exception (msg : String)
  | checkoutOk (order_id : String) (redirect_url : String) (amount : Nat)
      (currency : String)
deriving DecidableEq, Repr

/-- The HTTP status the client observes: an `HTTPException` carries its
status; an uncaught exception becomes `500 Internal Server Error`. -/
def replyStatus : HttpReply → Nat
  | .httpError s _ => s
  | .exception _ => 500
  | .checkoutOk _ _ _ _ => 200

/-- Outcome of `create_checkout`: the database afterwards, whether
`cancel_only_goodie` was awaited on the sold-out path, and the reply. -/
structure CheckoutOutcome where
  db : SrvDb
  goodieVoided : Bool
  reply : HttpReply
deriving DecidableEq, Repr

/-- The `Order(id=order_id, …, status="PENDING")` row the checkout handler
inserts; `paid_at`, `ticket_code` and `got_goodie` take their column
defaults. -/
def checkoutOrderRow (cls email tid gid : String) (goodie_ok : Bool)
    (order_id : String) (now : Int) : OrderRow :=
  { id := order_id
    tb_transfer_id := tid
    goodie_tb_transfer_id := gid
    try_goodie := goodie_ok
    cls := cls
    qty := 1
    amount := (ticketPrice cls).getD 0 * 1
    currency := "eur"
    customer_email := email
    status := "PENDING"
    created_at := now
    paid_at := none
    ticket_code := none
    got_goodie := false }

/-- `create_checkout` (`server.py`), SQL path.  `email` is the already
stripped `customer_email`; `holdResult` is what
`tigerbeetledb.hold_tickets` returned: `(tb_transfer_id,
goodie_tb_transfer_id, ticket_ok, goodie_ok)`.  On the sold-out path the
handler voids the goodie hold when it succeeded and then raises
`RuntimeError("Sold Out")` — an uncaught exception, not an
`HTTPException`.  On success it inserts the `Order` row (status
`PENDING`) and the `PaymentSession` row in one transaction. -/
def create_checkout (db : SrvDb) (cls email : String)
    (holdResult : String × String × Bool × Bool)
    (order_id psid redirect_url : String) (now : Int) : CheckoutOutcome :=
  if is_valid_email email = false then
    { db := db, goodieVoided := false,
      reply := .httpError 400
        "customer_email is required and must be a valid email address" }
  else if ticketPrice cls = none then
    { db := db, goodieVoided := false,
      reply := .httpError 400 "invalid ticket class" }
  else
    match holdResult with
    | (tid, gid, ticket_ok, goodie_ok) =>
      if ticket_ok = false then
        { db := db, goodieVoided := goodie_ok,
          reply := .exception "Sold Out" }
      else
        let amount := (ticketPrice cls).getD 0 * 1
        { db := { db with
            orders := db.orders ++
              [checkoutOrderRow cls email tid gid goodie_ok order_id now]
            sessions := db.sessions ++
              [{ id := psid, order_id := order_id, amount := amount,
                 currency := "eur", created_at := now }] }
          goodieVoided := false
          reply := .checkoutOk order_id redirect_url amount "eur" }

/-- A concrete order row used by the C7 witness. -/
def wOrderRow : OrderRow :=
  { id := "oid1"
    tb_transfer_id := "11"
    goodie_tb_transfer_id := "22"
    try_goodie := true
    cls := "A"
    qty := 1
    amount := 6500
    currency := "eur"
    customer_email := "a@x.com"
    status := "PENDING"
    created_at := 0
    paid_at := none
    ticket_code := none
    got_goodie := false }

/-- A concrete database holding `wOrderRow` behind payment session `ps1`,
used by the C7 witness. -/
def wDb2 : SrvDb :=
  { orders := [wOrderRow]
    sessions := [{ id := "ps1", order_id := "oid1", amount := 6500,
                   currency := "eur", created_at := 0 }]
    fulfillKeys := []
    eventsSeen := [] }

/-- The webhook's session lookup: `select(Order).select_from(join(
PaymentSession, Order, PaymentSession.order_id == Order.id)).where(
PaymentSession.id == psid)`, first row. -/
def findOrderByPsid (db : SrvDb) (psid : String) : Option OrderRow :=
  match db.sessions.find? (fun ps => ps.id = psid) with
  | none => none
  | some ps => db.orders.find? (fun o => o.id = ps.order_id)

/-- A webhook JSON reply: `ok` is always true on the non-error paths, so
only the `idempotent` flag and the optional `order_status` are kept. -/
inductive WebhookReply where
  | httpError (status : Nat) (detail : String)
  | ok (idempotent : Bool) (order_status : Option String)
deriving DecidableEq, Repr

/-- Python truthiness of the optional idempotency key (`if idem:`). -/
def truthyOpt : Option String → Bool
  | none => false
  | some k => ¬(k = "")

/-- The rows the single transaction adds to `webhook_events_seen`:
the idempotency key when it is truthy (`if idem: db.add(…)`). -/
def idemInsert : Option String → List String
  | some k => if k = "" then [] else [k]
  | none => []

/-- The single-commit transaction hits an `IntegrityError` iff the
idempotency key or the fulfillment key primary key already exists. -/
def integrityViolation (db : SrvDb) (idem : Option String)
    (fulfillKey : String) : Bool :=
  (match idem with
   | some k => decide (¬(k = "") ∧ k ∈ db.eventsSeen)
   | none => false) || decide (fulfillKey ∈ db.fulfillKeys)

/-- The `kind == "succeeded"` ledger phase of the webhook: commit the
holds; on a failed ticket commit mark the in-memory order
`PAID_UNFULFILLED` and fall back to `book_immediately`, adopting its
transfer ids on success.  Returns the in-memory order and
`(gets_ticket, gets_goodie)`. -/
def mutateOrderSucceeded (order : OrderRow) (commitResult : Bool × Bool)
    (bookResult : String × String × Bool × Bool) :
    OrderRow × Bool × Bool :=
  if commitResult.1 = false then
    match bookResult with
    | (tid2, gid2, gt2, gg2) =>
      if gt2 then
        ({ order with
            status := "PAID_UNFULFILLED"
            tb_transfer_id := tid2
            goodie_tb_transfer_id := gid2 },
         true, commitResult.2 || gg2)
      else
        ({ order with status := "PAID_UNFULFILLED" }, false, commitResult.2)
  else (order, true, commitResult.2)

/-- The write phase inside the single transaction: ticket code (set only
when absent — `if not order.ticket_code`), goodie flag, status and
`paid_at` on success; `FAILED`/`CANCELED` otherwise. -/
def finalizeOrder (o : OrderRow) (kind : String) (gt gg : Bool)
    (freshCode : String) (now : Int) : OrderRow :=
  if kind = ("succeeded") then
    if gt then
      { o with
        ticket_code := some (match o.ticket_code with
          | none => freshCode
          | some c => if c = "" then freshCode else c)
        got_goodie := gg, status := "PAID", paid_at := some now }
    else { o with status := "PAID_UNFULFILLED", paid_at := some now }
  else { o with status := if kind = ("failed") then "FAILED" else "CANCELED" }

/-- `payments_webhook` (`server.py`), SQL path, after signature
verification.  `commitResult`/`bookResult` are the outcomes of the awaited
external-ledger calls (`commit_order`, `book_immediately`);
`freshCode` is the random ticket code that would be generated.  Rollback on
`IntegrityError` returns the in-memory order status with
`idempotent = true` and leaves the database unchanged. -/
def payments_webhook_sql (db : SrvDb) (kind psid : String)
    (idem : Option String) (commitResult : Bool × Bool)
    (bookResult : String × String × Bool × Bool) (freshCode : String)
    (now : Int) : SrvDb × WebhookReply :=
  match findOrderByPsid db psid with
  | none => (db, .httpError 404 "order not found for payment_session_id")
  | some order =>
    let fulfillKey := order.id ++ ":" ++ psid
    if fulfillKey ∈ db.fulfillKeys then (db, .ok true none)
    else
      let step :=
        if kind = ("succeeded") then
          mutateOrderSucceeded order commitResult bookResult
        else (order, false, false)
      let finalOrder := finalizeOrder step.1 kind step.2.1 step.2.2
        freshCode now
      if integrityViolation db idem fulfillKey then
        (db, .ok true (some finalOrder.status))
      else
        ({ db with
            eventsSeen := db.eventsSeen ++ idemInsert idem
            fulfillKeys := db.fulfillKeys ++ [fulfillKey]
            orders := db.orders.map (fun o =>
              if o.id = order.id then finalOrder else o) },
          .ok false (some finalOrder.status))

/-- The Redis-path state the webhook guard reads: session hashes
(`ps:psid` with their `order_id` field), order hashes (`order:oid`), and
the `fulfill:oid:psid` gate keys. -/
structure RedisDb where
  psHashes : List (String × String)
  orderHashes : List String
  fulfillKeys : List String
deriving DecidableEq, Repr

/-- Outcome of the Redis-path webhook guard section. -/
inductive WebhookGuardOutcome where
  | notFound404
  | idempotentOk
  | proceed (order_id : String)
deriving DecidableEq, Repr

/-- `payments_webhook` (`server.py`), Redis path, guard section:
`get_payment_session` then `get_order` (`404` if either is missing) and
only then the `fulfill:` early idempotency short-circuit. -/
def payments_webhook_redis_guard (r : RedisDb) (psid : String) :
    WebhookGuardOutcome :=
  match r.psHashes.find? (fun p => p.1 = psid) with
  | none => .notFound404
  | some p =>
    if p.2 ∈ r.orderHashes then
      if ("fulfill:" ++ p.2 ++ ":" ++ psid) ∈ r.fulfillKeys then
        .idempotentOk
      else .proceed p.2
    else .notFound404

/-- A database with a fulfillment key set but no payment session, used by
the C10 witness. -/
def wGateDb : SrvDb :=
  { orders := []
    sessions := []
    fulfillKeys := ["oid1:ps1"]
    eventsSeen := [] }

/-- A Redis store with a fulfillment gate key but no session hash, used by
the C10 witness. -/
def wGateRedisDb : RedisDb :=
  { psHashes := []
    orderHashes := ["oid1"]
    fulfillKeys := ["fulfill:oid1:ps1"] }

/-! ## The payment-session store (`model/paymentsession/`)

Both backends reduce to which fulfillment-gate keys and which
event-idempotency keys currently exist (Redis `fulfill:psid` /
`idemp:evt` NX keys, or rows of `fulfillment_gates` /
`idempotency_keys`); TTLs are not modelled since no claim concerns key
expiry. -/

structure PsState where
  gates : List String
  idemKeys : List String
deriving DecidableEq, Repr

/-- The dict returned by `fulfill_and_mark_event`. -/
structure FulfillOutcome where
  already_fulfilled : Bool
  event_seen : Option Bool
deriving DecidableEq, Repr

/-- Redis `fulfill_gate`: `SET NX` on `fulfill:psid`; true iff the gate
was just set. -/
def redis_fulfill_gate (st : PsState) (psid : String) : Bool × PsState :=
  if psid ∈ st.gates then (false, st)
  else (true, { st with gates := st.gates ++ [psid] })

/-- Redis `mark_event_seen`: true for a falsy id, else `SET NX` on
`idemp:evt` — true iff the key was new. -/
def redis_mark_event_seen (st : PsState) (evt : Option String) :
    Bool × PsState :=
  match evt with
  | none => (true, st)
  | some k =>
    if k = "" then (true, st)
    else if k ∈ st.idemKeys then (false, st)
    else (true, { st with idemKeys := st.idemKeys ++ [k] })

/-- `PaymentSessionStore.fulfill_and_mark_event`
(`paymentsession/_redis.py`): try the gate first; if it already existed,
short-circuit without touching the idempotency key; otherwise mark the
event (when a truthy id is given) and report `event_seen = not new`. -/
def redis_fulfill_and_mark_event (st : PsState) (psid : String)
    (evt : Option String) : FulfillOutcome × PsState :=
  let g := redis_fulfill_gate st psid
  if g.1 = false then
    ({ already_fulfilled := true, event_seen := none }, g.2)
  else
    match evt with
    | some k =>
      if k = "" then ({ already_fulfilled := false, event_seen := none }, g.2)
      else
        let m := redis_mark_event_seen g.2 (some k)
        ({ already_fulfilled := false, event_seen := some (!m.1) }, m.2)
    | none => ({ already_fulfilled := false, event_seen := none }, g.2)

/-- `PaymentSessionStore.fulfill_and_mark_event`
(`paymentsession/_postgres.py`): one transaction; `INSERT … ON CONFLICT DO
NOTHING RETURNING` on `fulfillment_gates`, and, only when the gate was just
inserted and a truthy key is given, the same on `idempotency_keys`;
`event_seen = (idem_row is None)`. -/
def pg_fulfill_and_mark_event (st : PsState) (psid : String)
    (idem : Option String) : FulfillOutcome × PsState :=
  if psid ∈ st.gates then
    ({ already_fulfilled := true, event_seen := none }, st)
  else
    let st1 : PsState := { st with gates := st.gates ++ [psid] }
    match idem with
    | some k =>
      if k = "" then ({ already_fulfilled := false, event_seen := none }, st1)
      else if k ∈ st.idemKeys then
        ({ already_fulfilled := false, event_seen := some true }, st1)
      else
        ({ already_fulfilled := false, event_seen := some false },
         { st1 with idemKeys := st1.idemKeys ++ [k] })
    | none => ({ already_fulfilled := false, event_seen := none }, st1)

/-! ## The TigerBeetle accounting backend and its batcher
(`model/accounting/_tigerbeetle.py`) -/

/-- The TigerBeetle account ids used by the ticket/goodie transfers. -/
def Class_A_budget_id : Nat := 2125

def Class_A_spent_id : Nat := 2129

def Class_B_budget_id : Nat := 2225

def Class_B_spent_id : Nat := 2229

def First_n_budget_id : Nat := 2115

def First_n_spent_id : Nat := 2119

inductive TbFlag where
  | pendingTransfer
  | postPendingTransfer
  | voidPendingTransfer
deriving DecidableEq, Repr

/-- The fields of a `tb.Transfer` that the embedded claims depend on. -/
structure TbTransfer where
  id : Nat
  debit_account_id : Nat
  credit_account_id : Nat
  amount : Nat
  pending_id : Nat
  flags : TbFlag
deriving DecidableEq, Repr

/-- A `tb.CreateTransferResult`: only its `index` field is consulted. -/
structure TbError where
  index : Nat
deriving DecidableEq, Repr

/-- The `POST_PENDING_TRANSFER` for the ticket hold built by the
TigerBeetle `commit_order`. -/
def ticketPostTransfer (id_post tid : Nat) (cls : String) (qty : Nat) :
    TbTransfer :=
  { id := id_post
    debit_account_id :=
      if cls = ("A") then Class_A_budget_id else Class_B_budget_id
    credit_account_id :=
      if cls = ("A") then Class_A_spent_id else Class_B_spent_id
    amount := qty
    pending_id := tid
    flags := TbFlag.postPendingTransfer }

/-- The `POST_PENDING_TRANSFER` for the goodie hold, appended only when
`try_goodie`. -/
def goodiePostTransfer (id_post_goodies gid : Nat) : TbTransfer :=
  { id := id_post_goodies
    debit_account_id := First_n_budget_id
    credit_account_id := First_n_spent_id
    amount := 1
    pending_id := gid
    flags := TbFlag.postPendingTransfer }

/-- `commit_order` of the TigerBeetle backend: the submitted transfer list
(the ticket post and, only when `try_goodie`, the goodie post) and the
`(has_ticket, has_goodie)` flags computed from the returned errors by
`if transfer_error.index == 0 … if transfer_error.index == 1 …`.  `none`
models the `ValueError` for a bad class. -/
def commit_order_tb (id_post id_post_goodies tid gid : Nat) (cls : String)
    (qty : Nat) (try_goodie : Bool) (errs : List TbError) :
    Option (List TbTransfer × Bool × Bool) :=
  if cls ≠ ("A") ∧ cls ≠ ("B") then none
  else
    let transfers :=
      [ticketPostTransfer id_post tid cls qty] ++
      (if try_goodie then [goodiePostTransfer id_post_goodies gid] else [])
    let has_ticket := !(errs.any (fun e => e.index = 0))
    let has_goodie := try_goodie && !(errs.any (fun e => e.index = 1))
    some (transfers, has_ticket, has_goodie)

/-- `TransferBatcher._flush`, result distribution: `full_results =
[None] * len(batch); for e in error_results: full_results[e.index] = e`.
`ChainedTransferBatcher._process_next_batch` builds its per-batch
`full_results` the same way. -/
def fullResults (batchLen : Nat) (errs : List TbError) :
    List (Option TbError) :=
  errs.foldl (fun acc e => acc.set e.index (some e))
    (List.replicate batchLen none)

/-- Resolution of one completion `(start, num)`: `sub_slice =
full_results[start:start+num]; sub_results = [r for r in sub_slice if r is
not None]` — the surviving error objects keep their original `index`. -/
def resolveOne (full : List (Option TbError)) (start num : Nat) :
    List TbError :=
  ((full.drop start).take num).filterMap id

/-- What `_flush` hands to each pending completion of the batch. -/
def resolveCompletions (batchLen : Nat) (errs : List TbError)
    (completions : List (Nat × Nat)) : List (List TbError) :=
  completions.map (fun c => resolveOne (fullResults batchLen errs) c.1 c.2)

/-- Modelled from the spec (§4.2 contract): the failures owed to a caller
whose submission occupies `[start, start+num)` of the batch, expressed in
the submission's local index space — entry `i` of this parallel list is
the error of the caller's `i`-th transfer, remapped to local index `i`. -/
def specLocalFailures (errs : List TbError) (start num : Nat) :
    List (Option TbError) :=
  (List.range num).map (fun i =>
    if errs.any (fun e => e.index = start + i) then
      some { index := i }
    else none)

/-- How the batcher's callers (`hold_tickets`, `book_immediately`,
`commit_order`) read a resolved error list: the transfer at local index 0
failed / the transfer at local index 1 failed. -/
def callerFlags (errs : List TbError) : Bool × Bool :=
  (!(errs.any (fun e => e.index = 0)), !(errs.any (fun e => e.index = 1)))

theorem filterMapSum_cons (p : Hold → Prop) [DecidablePred p]
    (f : Hold → Nat) (h : Hold) (t : List Hold) :
    ((List.filter (fun x => p x) (h :: t)).map f).sum =
      (if p h then f h else 0) +
        ((List.filter (fun x => p x) t).map f).sum := by
  by_cases hp : p h <;> simp [hp]

theorem contrib_posted (r : String) (now : Int) (h : Hold)
    (hp : h.status = HStatus.posted ∧ h.resource = r) :
    contrib r now h = h.qty := by
  have hq : ¬(h.status = HStatus.pending ∧ h.resource = r ∧
      liveAt now h.expires_at) := by
    rintro ⟨c1, -⟩
    rw [hp.1] at c1
    exact HStatus.noConfusion c1
  unfold contrib
  rw [if_pos hp, if_neg hq]
  omega

theorem contrib_pending_live (r : String) (now : Int) (h : Hold)
    (hq : h.status = HStatus.pending ∧ h.resource = r ∧
      liveAt now h.expires_at) :
    contrib r now h = h.qty := by
  have hp : ¬(h.status = HStatus.posted ∧ h.resource = r) := by
    rintro ⟨c1, -⟩
    rw [hq.1] at c1
    exact HStatus.noConfusion c1
  unfold contrib
  rw [if_neg hp, if_pos hq]
  omega

theorem contrib_other (r : String) (now : Int) (h : Hold)
    (hp : ¬(h.status = HStatus.posted ∧ h.resource = r))
    (hq : ¬(h.status = HStatus.pending ∧ h.resource = r ∧
      liveAt now h.expires_at)) :
    contrib r now h = 0 := by
  unfold contrib
  rw [if_neg hp, if_neg hq]

theorem sold_add_held_eq (s : AcctState) (r : String) (now : Int) :
    soldSum s r + heldSum s r now = (s.holds.map (contrib r now)).sum := by
  unfold soldSum heldSum
  induction s.holds with
  | nil => simp
  | cons h t ih =>
    rw [filterMapSum_cons (fun x => x.status = HStatus.posted ∧ x.resource = r),
      filterMapSum_cons
        (fun x =>
          x.status = HStatus.pending ∧ x.resource = r ∧ liveAt now x.expires_at),
      List.map_cons, List.sum_cons]
    by_cases hp : h.status = HStatus.posted ∧ h.resource = r
    · have hq : ¬(h.status = HStatus.pending ∧ h.resource = r ∧
          liveAt now h.expires_at) := by
        rintro ⟨c1, -⟩
        rw [hp.1] at c1
        exact HStatus.noConfusion c1
      rw [if_pos hp, if_neg hq, contrib_posted r now h hp]
      omega
    · rw [if_neg hp]
      by_cases hq : h.status = HStatus.pending ∧ h.resource = r ∧
          liveAt now h.expires_at
      · rw [if_pos hq, contrib_pending_live r now h hq]; omega
      · rw [if_neg hq, contrib_other r now h hp hq]; omega

theorem contrib_of_ne_resource (r : String) (now : Int) (h : Hold)
    (hne : h.resource ≠ r) : contrib r now h = 0 :=
  contrib_other r now h (fun c => hne c.2) (fun c => hne c.2.1)

theorem liveAt_mono (now now' : Int) (hle : now ≤ now') (e : Option Int)
    (hl : liveAt now' e = true) : liveAt now e = true := by
  cases e with
  | none => rfl
  | some t =>
    simp only [liveAt, decide_eq_true_eq] at hl ⊢
    omega

/-- `live_pending` only shrinks as the clock advances. -/
theorem contrib_mono_time (r : String) (now now' : Int) (hle : now ≤ now')
    (h : Hold) : contrib r now' h ≤ contrib r now h := by
  by_cases hq : h.status = HStatus.pending ∧ h.resource = r ∧
      liveAt now' h.expires_at
  · have hq0 : h.status = HStatus.pending ∧ h.resource = r ∧
        liveAt now h.expires_at :=
      ⟨hq.1, hq.2.1, liveAt_mono now now' hle h.expires_at hq.2.2⟩
    rw [contrib_pending_live r now' h hq, contrib_pending_live r now h hq0]
  · by_cases hp : h.status = HStatus.posted ∧ h.resource = r
    · rw [contrib_posted r now' h hp, contrib_posted r now h hp]
    · rw [contrib_other r now' h hp hq]
      exact Nat.zero_le _

theorem inv_mono_time (s : AcctState) (now now' : Int) (hle : now ≤ now')
    (hInv : Inv s now) : Inv s now' := by
  intro r cap hcap
  calc soldSum s r + heldSum s r now'
      = (s.holds.map (contrib r now')).sum := sold_add_held_eq s r now'
    _ ≤ (s.holds.map (contrib r now)).sum :=
        List.sum_le_sum (fun h _ => contrib_mono_time r now now' hle h)
    _ = soldSum s r + heldSum s r now := (sold_add_held_eq s r now).symm
    _ ≤ cap := hInv r cap hcap

/-- A row update (`UPDATE … SET …`) that never increases any hold's
contribution preserves the invariant; the `resources` table is untouched. -/
theorem inv_map_update (s : AcctState) (now : Int) (f : Hold → Hold)
    (hpt : ∀ r h, contrib r now (f h) ≤ contrib r now h)
    (hInv : Inv s now) : Inv { s with holds := s.holds.map f } now := by
  intro r cap hcap
  have hcap' : capacityOf s r = some cap := hcap
  calc soldSum { s with holds := s.holds.map f } r +
        heldSum { s with holds := s.holds.map f } r now
      = ((s.holds.map f).map (contrib r now)).sum :=
        sold_add_held_eq { s with holds := s.holds.map f } r now
    _ = (s.holds.map (fun h => contrib r now (f h))).sum := by
        rw [List.map_map]; rfl
    _ ≤ (s.holds.map (contrib r now)).sum :=
        List.sum_le_sum (fun h _ => hpt r h)
    _ = soldSum s r + heldSum s r now := (sold_add_held_eq s r now).symm
    _ ≤ cap := hInv r cap hcap'

/-- Appending one hold whose own-resource contribution still fits under the
capacity preserves the invariant. -/
theorem inv_append (s : AcctState) (now : Int) (h : Hold) (n : Nat)
    (hInv : Inv s now)
    (hb : ∀ cap, capacityOf s h.resource = some cap →
      soldSum s h.resource + heldSum s h.resource now +
        contrib h.resource now h ≤ cap) :
    Inv { s with holds := s.holds ++ [h], next_id := n } now := by
  intro r cap hcap
  have hcap' : capacityOf s r = some cap := hcap
  have hsum : soldSum { s with holds := s.holds ++ [h], next_id := n } r +
      heldSum { s with holds := s.holds ++ [h], next_id := n } r now
      = soldSum s r + heldSum s r now + contrib r now h := by
    rw [sold_add_held_eq, sold_add_held_eq]
    show ((s.holds ++ [h]).map (contrib r now)).sum = _
    rw [List.map_append, List.sum_append]
    simp
  rw [hsum]
  by_cases hr : h.resource = r
  · subst hr
    exact hb cap hcap'
  · rw [contrib_of_ne_resource r now h hr]
    have := hInv r cap hcap'
    omega

/-! ## Invariant preservation by each accounting operation -/

theorem inv_postOne (s : AcctState) (hid : Nat) (now : Int)
    (hInv : Inv s now) : Inv (postOne s hid now).2 now := by
  have hrw : (postOne s hid now).2 = { s with holds := s.holds.map (fun h =>
      if h.id = hid ∧ h.status = HStatus.pending ∧ liveAt now h.expires_at = true
      then { h with status := HStatus.posted, expires_at := none }
      else h) } := rfl
  rw [hrw]
  apply inv_map_update s now _ _ hInv
  intro r h
  by_cases hc : h.id = hid ∧ h.status = HStatus.pending ∧
      liveAt now h.expires_at = true
  · rw [if_pos hc]
    by_cases hr : h.resource = r
    · rw [contrib_posted r now
          { h with status := HStatus.posted, expires_at := none } ⟨rfl, hr⟩,
        contrib_pending_live r now h ⟨hc.2.1, hr, hc.2.2⟩]
    · rw [contrib_of_ne_resource r now
          { h with status := HStatus.posted, expires_at := none } hr,
        contrib_of_ne_resource r now h hr]
  · rw [if_neg hc]

theorem inv_optPost (s : AcctState) (t : Option Nat) (now : Int)
    (hInv : Inv s now) : Inv (optPost s t now).2 now := by
  cases t with
  | none => exact hInv
  | some i => exact inv_postOne s i now hInv

theorem inv_commit_order (s : AcctState) (th gh : Option Nat) (g : Bool)
    (now : Int) (hInv : Inv s now) : Inv (commit_order s th gh g now).2 now :=
  inv_optPost _ _ _ (inv_optPost _ _ _ hInv)

theorem inv_voidAny (s : AcctState) (ids : List Nat) (now : Int)
    (hInv : Inv s now) : Inv (voidAny s ids now) now := by
  apply inv_map_update s now _ _ hInv
  intro r h
  by_cases hc : h.id ∈ ids ∧ h.status = HStatus.pending ∧
      liveAt now h.expires_at = true
  · rw [if_pos hc]
    rw [contrib_other r now { h with status := HStatus.voided }
      (fun c => HStatus.noConfusion c.1) (fun c => HStatus.noConfusion c.1)]
    exact Nat.zero_le _
  · rw [if_neg hc]

theorem inv_cancel_order (s : AcctState) (th gh : Option Nat) (now : Int)
    (hInv : Inv s now) : Inv (cancel_order s th gh now) now := by
  unfold cancel_order
  split
  · exact hInv
  · exact inv_voidAny _ _ _ hInv

theorem inv_cancel_only_goodie (s : AcctState) (gh : Option Nat) (now : Int)
    (hInv : Inv s now) : Inv (cancel_only_goodie s gh now) now := by
  unfold cancel_only_goodie
  split
  · exact hInv
  · exact inv_voidAny _ _ _ hInv

/-- The freshly inserted pending hold is live at insertion time. -/
theorem liveAt_expiryOf (timeout : Option Int) (now : Int) :
    liveAt now (expiryOf timeout now) = true := by
  cases timeout with
  | none => rfl
  | some t =>
    show liveAt now (if 0 < t then some (now + t) else none) = true
    by_cases ht : 0 < t
    · rw [if_pos ht]
      simp only [liveAt, decide_eq_true_eq]
      omega
    · rw [if_neg ht]
      rfl

theorem inv_insertHoldIfCapacity (s : AcctState) (r : String) (qty : Nat)
    (timeout : Option Int) (now : Int) (oid : Option Nat) (s' : AcctState)
    (hInv : Inv s now)
    (hrun : insertHoldIfCapacity s r qty timeout now = some (oid, s')) :
    Inv s' now := by
  unfold insertHoldIfCapacity availableUnits at hrun
  cases hcap : capacityOf s r with
  | none => rw [hcap] at hrun; cases hrun
  | some cap =>
    rw [hcap] at hrun
    dsimp only at hrun
    by_cases hlt : ((cap : Int) - soldSum s r - heldSum s r now < (qty : Int))
    · rw [if_pos hlt] at hrun
      cases hrun
      exact hInv
    · rw [if_neg hlt] at hrun
      cases hrun
      apply inv_append s now _ _ hInv
      intro cap' hcap'
      dsimp only at hcap'
      rw [hcap] at hcap'
      cases hcap'
      rw [contrib_pending_live _ now _ ⟨rfl, rfl, liveAt_expiryOf timeout now⟩]
      dsimp only
      omega

theorem inv_hold_tickets (s : AcctState) (cls : String) (qty : Nat)
    (timeout : Option Int) (n1 n2 : Int) (out) (hInv : Inv s n1)
    (h12 : n1 ≤ n2) (hrun : hold_tickets s cls qty timeout n1 n2 = some out) :
    Inv out.2 n2 := by
  unfold hold_tickets at hrun
  split at hrun
  · cases hrun
  · cases h1 : insertHoldIfCapacity s
        (if cls = ("A") then RES_CLASS_A else RES_CLASS_B) qty timeout n1 with
    | none => rw [h1] at hrun; cases hrun
    | some p1 =>
      obtain ⟨tid1, s1⟩ := p1
      rw [h1] at hrun
      dsimp only at hrun
      cases h2 : insertHoldIfCapacity s1 RES_GOODIE 1 timeout n2 with
      | none => rw [h2] at hrun; cases hrun
      | some p2 =>
        obtain ⟨gid2, s2⟩ := p2
        rw [h2] at hrun
        dsimp only at hrun
        cases hrun
        have i1 : Inv s1 n1 :=
          inv_insertHoldIfCapacity s _ qty timeout n1 tid1 s1 hInv h1
        have i2 : Inv s1 n2 := inv_mono_time s1 n1 n2 h12 i1
        exact inv_insertHoldIfCapacity s1 RES_GOODIE 1 timeout n2 gid2 s2
          i2 h2

theorem inv_insertPostedIfAvail (s : AcctState) (r : String) (q : Nat)
    (now : Int) (oid : Option Nat) (s' : AcctState) (hInv : Inv s now)
    (hrun : insertPostedIfAvail s r q now = some (oid, s')) : Inv s' now := by
  unfold insertPostedIfAvail availableUnits at hrun
  cases hcap : capacityOf s r with
  | none => rw [hcap] at hrun; cases hrun
  | some cap =>
    rw [hcap] at hrun
    dsimp only at hrun
    by_cases hle : ((q : Int) ≤ (cap : Int) - soldSum s r - heldSum s r now)
    · rw [if_pos hle] at hrun
      cases hrun
      apply inv_append s now _ _ hInv
      intro cap' hcap'
      dsimp only at hcap'
      rw [hcap] at hcap'
      cases hcap'
      rw [contrib_posted _ now _ ⟨rfl, rfl⟩]
      dsimp only
      omega
    · rw [if_neg hle] at hrun
      cases hrun
      exact hInv

theorem inv_book_immediately (s : AcctState) (cls : String) (qty : Nat)
    (now : Int) (out) (hInv : Inv s now)
    (hrun : book_immediately s cls qty now = some out) : Inv out.2 now := by
  unfold book_immediately at hrun
  split at hrun
  · cases hrun
  · cases h1 : insertPostedIfAvail s
        (if cls = ("A") then RES_CLASS_A else RES_CLASS_B) qty now with
    | none => rw [h1] at hrun; cases hrun
    | some p1 =>
      obtain ⟨tid1, s1⟩ := p1
      rw [h1] at hrun
      dsimp only at hrun
      cases h2 : insertPostedIfAvail s1 RES_GOODIE 1 now with
      | none => rw [h2] at hrun; cases hrun
      | some p2 =>
        obtain ⟨gid2, s2⟩ := p2
        rw [h2] at hrun
        dsimp only at hrun
        cases hrun
        have i1 : Inv s1 now :=
          inv_insertPostedIfAvail s _ qty now tid1 s1 hInv h1
        exact inv_insertPostedIfAvail s1 RES_GOODIE 1 now gid2 s2 i1 h2

/-- A store with no holds at all satisfies the capacity invariant. -/
theorem inv_of_no_holds (res : List (String × Nat)) (nid : Nat) (now : Int) :
    Inv { resources := res, holds := [], next_id := nid } now := by
  intro r cap hcap
  simp [soldSum, heldSum]

/-- **C1** — Per-resource capacity invariant: in every state satisfying
`posted(R) + live_pending(R) ≤ capacity(R)` for all resources, the
invariant still holds after the clock advances, and it is preserved by
every accounting operation of the relational backend: `hold_tickets`
(reserve), `commit_order` (post), `cancel_order` (void) and
`book_immediately` (fast-book). -/
theorem acct_capacity_invariant_preserved
    (s : AcctState) (now n1 n2 : Int) (hInv : Inv s now)
    (h01 : now ≤ n1) (h12 : n1 ≤ n2) :
    (∀ res nid,
      Inv { resources := res, holds := [], next_id := nid } n1) ∧
    Inv s n1 ∧
    (∀ cls qty timeout out,
      hold_tickets s cls qty timeout n1 n2 = some out → Inv out.2 n2) ∧
    (∀ th gh g, Inv (commit_order s th gh g n1).2 n1) ∧
    (∀ th gh, Inv (cancel_order s th gh n1) n1) ∧
    (∀ cls qty out,
      book_immediately s cls qty n1 = some out → Inv out.2 n1) := by
  have hInv1 : Inv s n1 := inv_mono_time s now n1 h01 hInv
  exact ⟨fun res nid => inv_of_no_holds res nid n1, hInv1,
    fun cls qty timeout out h =>
      inv_hold_tickets s cls qty timeout n1 n2 out hInv1 h12 h,
    fun th gh g => inv_commit_order s th gh g n1 hInv1,
    fun th gh => inv_cancel_order s th gh n1 hInv1,
    fun cls qty out h => inv_book_immediately s cls qty n1 out hInv1 h⟩

/-- Witness for C1 at a concrete store: the hypotheses are satisfiable and
the invariant carries through a concrete `commit_order`. -/
theorem acct_capacity_invariant_preserved_witness :
    Inv { resources := demoResources, holds := [], next_id := 0 } 0 ∧
    (0 : Int) ≤ 0 ∧
    Inv (commit_order { resources := demoResources, holds := [], next_id := 0 }
      (some 0) none false 0).2 0 :=
  ⟨inv_of_no_holds demoResources 0 0, le_rfl,
    (acct_capacity_invariant_preserved
        { resources := demoResources, holds := [], next_id := 0 } 0 0 0
        (inv_of_no_holds demoResources 0 0) le_rfl le_rfl).2.2.2.1
      (some 0) none false⟩

/-- **C2** — Reserve accept/reject with exact boundary: a call of the
reserve primitive `_insert_hold_if_capacity` succeeds (inserts a pending
hold and returns its id) exactly when
`live_pending + posted + qty ≤ capacity` at the time of the call — in
particular a reserve landing exactly at capacity succeeds — and otherwise
returns `None` leaving the store unchanged. -/
theorem reserve_accept_iff_capacity
    (s : AcctState) (r : String) (qty : Nat) (timeout : Option Int)
    (now : Int) (cap : Nat) (hcap : capacityOf s r = some cap)
    (hq : 0 < qty) :
    ∃ oid s', insertHoldIfCapacity s r qty timeout now = some (oid, s') ∧
      (oid.isSome = true ↔ heldSum s r now + soldSum s r + qty ≤ cap) ∧
      (oid = none → s' = s) ∧
      (∀ i, oid = some i → i = s.next_id ∧
        s'.holds = s.holds ++
          [{ id := s.next_id, resource := r, qty := qty,
             status := HStatus.pending, expires_at := expiryOf timeout now,
             created_at := now }] ∧
        s'.next_id = s.next_id + 1 ∧ s'.resources = s.resources) := by
  unfold insertHoldIfCapacity availableUnits
  rw [hcap]
  dsimp only
  by_cases hlt : ((cap : Int) - soldSum s r - heldSum s r now < (qty : Int))
  · rw [if_pos hlt]
    refine ⟨none, s, rfl, ?_, ?_, ?_⟩
    · simp only [Option.isSome_none, Bool.false_eq_true, false_iff]
      omega
    · intro h
      rfl
    · intro i hi
      cases hi
  · rw [if_neg hlt]
    refine ⟨some s.next_id, _, rfl, ?_, ?_, ?_⟩
    · simp only [Option.isSome_some, true_iff]
      omega
    · intro h
      cases h
    · intro i hi
      cases hi
      exact ⟨rfl, rfl, rfl, rfl⟩

/-- Witness for C2: with capacity 1 and an empty store, reserving one unit
lands exactly at capacity and succeeds. -/
theorem reserve_accept_iff_capacity_witness :
    capacityOf { resources := [(RES_CLASS_A, 1)], holds := [], next_id := 0 }
      RES_CLASS_A = some 1 ∧
    0 < 1 ∧
    (∃ oid s',
      insertHoldIfCapacity
        { resources := [(RES_CLASS_A, 1)], holds := [], next_id := 0 }
        RES_CLASS_A 1 (some 300) 0 = some (oid, s') ∧
      (oid.isSome = true ↔
        heldSum { resources := [(RES_CLASS_A, 1)], holds := [], next_id := 0 }
            RES_CLASS_A 0 +
          soldSum { resources := [(RES_CLASS_A, 1)], holds := [], next_id := 0 }
            RES_CLASS_A + 1 ≤ 1) ∧
      (oid = none → s' =
        { resources := [(RES_CLASS_A, 1)], holds := [], next_id := 0 }) ∧
      (∀ i, oid = some i → i = 0 ∧
        s'.holds =
          [{ id := 0, resource := RES_CLASS_A, qty := 1,
             status := HStatus.pending, expires_at := expiryOf (some 300) 0,
             created_at := 0 }] ∧
        s'.next_id = 1 ∧ s'.resources = [(RES_CLASS_A, 1)])) :=
  ⟨rfl, Nat.zero_lt_one,
    reserve_accept_iff_capacity
      { resources := [(RES_CLASS_A, 1)], holds := [], next_id := 0 }
      RES_CLASS_A 1 (some 300) 0 1 rfl Nat.zero_lt_one⟩

/-! ## No-op characterizations of the conditional UPDATEs -/

theorem map_eq_self (l : List Hold) (f : Hold → Hold)
    (hf : ∀ x ∈ l, f x = x) : l.map f = l := by
  induction l with
  | nil => rfl
  | cons a t ih =>
    rw [List.map_cons, hf a (List.mem_cons_self a t),
      ih (fun x hx => hf x (List.mem_cons_of_mem a hx))]

/-- `post` matches no row: it returns `False` and the store is unchanged. -/
theorem postOne_noop (s : AcctState) (hid : Nat) (now : Int)
    (hnone : ∀ h ∈ s.holds, ¬(h.id = hid ∧ h.status = HStatus.pending ∧
      liveAt now h.expires_at = true)) :
    postOne s hid now = (false, s) := by
  have h1 : ¬(∃ h ∈ s.holds, h.id = hid ∧ h.status = HStatus.pending ∧
      liveAt now h.expires_at = true) := by
    rintro ⟨h, hh, hc⟩
    exact hnone h hh hc
  have h2 : s.holds.map (fun h =>
      if h.id = hid ∧ h.status = HStatus.pending ∧
        liveAt now h.expires_at = true
      then { h with status := HStatus.posted, expires_at := none }
      else h) = s.holds :=
    map_eq_self _ _ (fun x hx => if_neg (hnone x hx))
  show (decide (∃ h ∈ s.holds, h.id = hid ∧ h.status = HStatus.pending ∧
      liveAt now h.expires_at = true),
    ({ s with holds := s.holds.map (fun h =>
      if h.id = hid ∧ h.status = HStatus.pending ∧
        liveAt now h.expires_at = true
      then { h with status := HStatus.posted, expires_at := none }
      else h) } : AcctState)) = (false, s)
  rw [h2, decide_eq_false h1]

/-- `void` matches no row: the store is unchanged. -/
theorem voidAny_noop (s : AcctState) (ids : List Nat) (now : Int)
    (hnone : ∀ h ∈ s.holds, ¬(h.id ∈ ids ∧ h.status = HStatus.pending ∧
      liveAt now h.expires_at = true)) :
    voidAny s ids now = s := by
  show ({ s with holds := s.holds.map (fun h =>
      if h.id ∈ ids ∧ h.status = HStatus.pending ∧
        liveAt now h.expires_at = true
      then { h with status := HStatus.voided }
      else h) } : AcctState) = s
  rw [map_eq_self _ _ (fun x hx => if_neg (hnone x hx))]

/-- After posting `hid`, no hold with that id is still pending-and-live at
any later clock value. -/
theorem postOne_result_not_pending_live (s : AcctState) (hid : Nat)
    (now now' : Int) (hmono : now ≤ now') :
    ∀ h ∈ (postOne s hid now).2.holds,
      ¬(h.id = hid ∧ h.status = HStatus.pending ∧
        liveAt now' h.expires_at = true) := by
  intro h hh hc
  have hh' : h ∈ s.holds.map (fun h =>
      if h.id = hid ∧ h.status = HStatus.pending ∧
        liveAt now h.expires_at = true
      then { h with status := HStatus.posted, expires_at := none }
      else h) := hh
  rcases List.mem_map.mp hh' with ⟨h0, hh0, hfh⟩
  by_cases hhit : h0.id = hid ∧ h0.status = HStatus.pending ∧
      liveAt now h0.expires_at = true
  · rw [← hfh, if_pos hhit] at hc
    exact HStatus.noConfusion hc.2.1
  · rw [← hfh, if_neg hhit] at hc
    exact hhit ⟨hc.1, hc.2.1, liveAt_mono now now' hmono _ hc.2.2⟩

/-- **C3 (counterexample)** — `reserve` then `post` then `post` on the same
pending id: the first `commit_order` returns `gets_ticket = true` but the
second returns `gets_ticket = false`, so the second call does *not* return
the same outcome as the first. -/
theorem commit_order_second_call_differs :
    insertHoldIfCapacity
        { resources := [(RES_CLASS_A, 1)], holds := [], next_id := 0 }
        RES_CLASS_A 1 (some 300) 0 = some (some 0, cexReservedState) ∧
    (commit_order cexReservedState (some 0) none false 10).1 =
      (true, false) ∧
    (commit_order (commit_order cexReservedState (some 0) none false 10).2
        (some 0) none false 10).1 = (false, false) ∧
    (commit_order (commit_order cexReservedState (some 0) none false 10).2
        (some 0) none false 10).1 ≠
      (commit_order cexReservedState (some 0) none false 10).1 := by
  refine ⟨?_, ?_, ?_, ?_⟩ <;> decide

/-- **C3 (amended)** — Post is a state-level no-op on re-submission: after
`commit_order` has been called on a pending id, calling it again at any
later time leaves the store unchanged and returns
`gets_ticket = false` (not the first call's outcome). -/
theorem second_post_noop_returns_false
    (s : AcctState) (hid : Nat) (now now' : Int) (hmono : now ≤ now') :
    commit_order (commit_order s (some hid) none false now).2
        (some hid) none false now' =
      ((false, false), (commit_order s (some hid) none false now).2) := by
  have key : postOne (postOne s hid now).2 hid now' =
      (false, (postOne s hid now).2) :=
    postOne_noop _ hid now'
      (postOne_result_not_pending_live s hid now now' hmono)
  show (((postOne (postOne s hid now).2 hid now').1, false),
      (postOne (postOne s hid now).2 hid now').2) =
    ((false, false), (postOne s hid now).2)
  rw [key]

/-- Witness for C3's amended theorem at a concrete store. -/
theorem second_post_noop_returns_false_witness :
    (0 : Int) ≤ 10 ∧
    commit_order (commit_order cexReservedState (some 0) none false 0).2
        (some 0) none false 10 =
      ((false, false), (commit_order cexReservedState (some 0) none false 0).2) :=
  ⟨by decide,
    second_post_noop_returns_false cexReservedState 0 0 10 (by decide)⟩

/-- **C4** — Expiry is terminal: if every pending hold carrying id `hid`
has expired (`expires_at ≤ now`) and at least one such pending hold exists,
then at any later time `post` (`commit_order`) returns
`gets_ticket = false` and changes nothing, and `void` (`cancel_order`) is a
no-op; the expired reservation can never transition to `posted`. -/
theorem expired_hold_terminal
    (s : AcctState) (hid : Nat) (now now' e : Int) (hmono : now ≤ now')
    (hmem : ∃ h ∈ s.holds, h.id = hid ∧ h.status = HStatus.pending ∧
      h.expires_at = some e ∧ e ≤ now)
    (hall : ∀ h ∈ s.holds, h.id = hid → h.status = HStatus.pending →
      ∃ t, h.expires_at = some t ∧ t ≤ now) :
    commit_order s (some hid) none false now' = ((false, false), s) ∧
    cancel_order s (some hid) none now' = s := by
  have hnone : ∀ h ∈ s.holds, ¬(h.id = hid ∧ h.status = HStatus.pending ∧
      liveAt now' h.expires_at = true) := by
    rintro h hh ⟨hi, hp, hl⟩
    rcases hall h hh hi hp with ⟨t, he, hle⟩
    rw [he] at hl
    simp only [liveAt, decide_eq_true_eq] at hl
    omega
  constructor
  · have key : postOne s hid now' = (false, s) := postOne_noop s hid now' hnone
    show (((postOne s hid now').1, false), (postOne s hid now').2) =
      ((false, false), s)
    rw [key]
  · show voidAny s ([hid] ++ []) now' = s
    apply voidAny_noop
    rintro h hh ⟨hi, hp, hl⟩
    have hi' : h.id = hid := by
      simpa using hi
    exact hnone h hh ⟨hi', hp, hl⟩

/-- Witness for C4: a hold that expired at time 5, probed at time 20. -/
theorem expired_hold_terminal_witness :
    (10 : Int) ≤ 20 ∧
    commit_order
        { resources := [(RES_CLASS_A, 1)]
          holds := [{ id := 0, resource := RES_CLASS_A, qty := 1,
                      status := HStatus.pending, expires_at := some 5,
                      created_at := 0 }]
          next_id := 1 } (some 0) none false 20 =
      ((false, false),
        { resources := [(RES_CLASS_A, 1)]
          holds := [{ id := 0, resource := RES_CLASS_A, qty := 1,
                      status := HStatus.pending, expires_at := some 5,
                      created_at := 0 }]
          next_id := 1 }) ∧
    cancel_order
        { resources := [(RES_CLASS_A, 1)]
          holds := [{ id := 0, resource := RES_CLASS_A, qty := 1,
                      status := HStatus.pending, expires_at := some 5,
                      created_at := 0 }]
          next_id := 1 } (some 0) none 20 =
      { resources := [(RES_CLASS_A, 1)]
        holds := [{ id := 0, resource := RES_CLASS_A, qty := 1,
                    status := HStatus.pending, expires_at := some 5,
                    created_at := 0 }]
        next_id := 1 } :=
  ⟨by decide,
    (expired_hold_terminal _ 0 10 20 5 (by decide) (by decide)
      (by decide)).1,
    (expired_hold_terminal _ 0 10 20 5 (by decide) (by decide)
      (by decide)).2⟩

/-! ## Claims about the HTTP handlers and the stores -/

/-- **C5** — Sold-out checkout path as implemented: when the ticket
reservation is rejected, the handler does void the goodie hold exactly
when that hold was granted, before responding — but the response is the
uncaught `RuntimeError("Sold Out")`, which the framework surfaces as HTTP
500, not the `409 Sold Out` response the specification states. -/
theorem checkout_sold_out_voids_goodie_but_raises
    (db : SrvDb) (cls email tid gid : String) (goodie_ok : Bool)
    (order_id psid url : String) (now : Int) (price : Nat)
    (hemail : is_valid_email email = true)
    (hcls : ticketPrice cls = some price) :
    (create_checkout db cls email (tid, gid, false, goodie_ok)
        order_id psid url now).goodieVoided = goodie_ok ∧
    (create_checkout db cls email (tid, gid, false, goodie_ok)
        order_id psid url now).reply = HttpReply.exception "Sold Out" ∧
    replyStatus (create_checkout db cls email (tid, gid, false, goodie_ok)
        order_id psid url now).reply = 500 ∧
    replyStatus (create_checkout db cls email (tid, gid, false, goodie_ok)
        order_id psid url now).reply ≠ 409 ∧
    (create_checkout db cls email (tid, gid, false, goodie_ok)
        order_id psid url now).db = db := by
  have hrun : create_checkout db cls email (tid, gid, false, goodie_ok)
      order_id psid url now =
      { db := db, goodieVoided := goodie_ok,
        reply := HttpReply.exception "Sold Out" } := by
    unfold create_checkout
    rw [hemail, hcls]
    simp
  rw [hrun]
  refine ⟨rfl, rfl, rfl, by simp [replyStatus], rfl⟩

/-- Witness for C5: a concrete sold-out checkout for class A with the
goodie hold granted. -/
theorem checkout_sold_out_voids_goodie_but_raises_witness :
    is_valid_email ("a@x.com") = true ∧
    ticketPrice ("A") = some 6500 ∧
    (create_checkout
        { orders := [], sessions := [], fulfillKeys := [], eventsSeen := [] }
        ("A") ("a@x.com") ("11", "22", false, true)
        ("oid1") ("ps1") ("u") 0).goodieVoided = true ∧
    replyStatus (create_checkout
        { orders := [], sessions := [], fulfillKeys := [], eventsSeen := [] }
        ("A") ("a@x.com") ("11", "22", false, true)
        ("oid1") ("ps1") ("u") 0).reply = 500 :=
  ⟨by decide, by decide,
    (checkout_sold_out_voids_goodie_but_raises
      { orders := [], sessions := [], fulfillKeys := [], eventsSeen := [] }
      ("A") ("a@x.com") ("11") ("22") true ("oid1") ("ps1") ("u") 0 6500
      (by decide) (by decide)).1,
    (checkout_sold_out_voids_goodie_but_raises
      { orders := [], sessions := [], fulfillKeys := [], eventsSeen := [] }
      ("A") ("a@x.com") ("11") ("22") true ("oid1") ("ps1") ("u") 0 6500
      (by decide) (by decide)).2.2.1⟩

/-- **C6** — Combined fulfillment/event-idempotency gate: the Redis and
the PostgreSQL `fulfill_and_mark_event` compute the same function of the
store state; when the gate for `psid` exists already the result is
`already_fulfilled = true` with `event_seen = none` and nothing (neither
gate nor event key) is touched; otherwise the gate is set and, for a
truthy `event_id`, `event_seen` is `true` exactly when the key already
existed, and `none` when no event id is given. -/
theorem fulfill_and_mark_event_contract
    (st : PsState) (psid : String) (evt : Option String) :
    redis_fulfill_and_mark_event st psid evt =
      pg_fulfill_and_mark_event st psid evt ∧
    (psid ∈ st.gates →
      redis_fulfill_and_mark_event st psid evt =
        ({ already_fulfilled := true, event_seen := none }, st)) ∧
    (psid ∉ st.gates →
      (redis_fulfill_and_mark_event st psid evt).2.gates =
        st.gates ++ [psid] ∧
      (redis_fulfill_and_mark_event st psid evt).1.already_fulfilled =
        false ∧
      (∀ k, evt = some k → ¬(k = "") →
        (redis_fulfill_and_mark_event st psid evt).1.event_seen =
          some (decide (k ∈ st.idemKeys))) ∧
      ((evt = none ∨ evt = some "") →
        (redis_fulfill_and_mark_event st psid evt).1.event_seen = none ∧
        (redis_fulfill_and_mark_event st psid evt).2.idemKeys =
          st.idemKeys)) := by
  by_cases hg : psid ∈ st.gates
  · refine ⟨?_, fun _ => ?_, fun hng => absurd hg hng⟩ <;>
      simp [redis_fulfill_and_mark_event, pg_fulfill_and_mark_event,
        redis_fulfill_gate, hg]
  · rcases evt with _ | k
    · refine ⟨?_, fun hin => absurd hin hg, fun _ => ?_⟩ <;>
        simp [redis_fulfill_and_mark_event, pg_fulfill_and_mark_event,
          redis_fulfill_gate, hg]
    · by_cases hk : k = ""
      · subst hk
        refine ⟨?_, fun hin => absurd hin hg, fun _ => ?_⟩ <;>
          simp [redis_fulfill_and_mark_event, pg_fulfill_and_mark_event,
            redis_fulfill_gate, hg]
      · by_cases hmem : k ∈ st.idemKeys
        · refine ⟨?_, fun hin => absurd hin hg, fun _ => ?_⟩ <;>
            simp [redis_fulfill_and_mark_event, pg_fulfill_and_mark_event,
              redis_fulfill_gate, redis_mark_event_seen, hg, hk, hmem]
        · refine ⟨?_, fun hin => absurd hin hg, fun _ => ?_⟩ <;>
            simp [redis_fulfill_and_mark_event, pg_fulfill_and_mark_event,
              redis_fulfill_gate, redis_mark_event_seen, hg, hk, hmem]

/-- Witness for C6 at a concrete store and event. -/
theorem fulfill_and_mark_event_contract_witness :
    redis_fulfill_and_mark_event
        { gates := ["p1"], idemKeys := ["e1"] } ("p2") (some ("e1")) =
      pg_fulfill_and_mark_event
        { gates := ["p1"], idemKeys := ["e1"] } ("p2") (some ("e1")) :=
  (fulfill_and_mark_event_contract
    { gates := ["p1"], idemKeys := ["e1"] } ("p2") (some ("e1"))).1

/-- **C7 (counterexample)** — The checkout handler does write to the
durable order store: a successful checkout on an empty database leaves the
`orders` table non-empty, holding the new order row with status
`PENDING`. -/
theorem checkout_writes_durable_order_row :
    (create_checkout
        { orders := [], sessions := [], fulfillKeys := [], eventsSeen := [] }
        ("A") ("a@x.com") ("11", "22", true, true)
        ("oid1") ("ps1") ("u") 0).db.orders ≠ [] ∧
    (∃ r ∈ (create_checkout
        { orders := [], sessions := [], fulfillKeys := [], eventsSeen := [] }
        ("A") ("a@x.com") ("11", "22", true, true)
        ("oid1") ("ps1") ("u") 0).db.orders,
      r.status = "PENDING" ∧ r.id = "oid1") := by
  refine ⟨?_, ?_⟩ <;> decide

/-- **C7 (amended)** — Durable-order lifecycle as implemented: the SQL-path
checkout handler itself inserts the durable order row with status
`PENDING` (together with the payment-session row), and the successfully
processed webhook does not insert a row — it mutates that existing row in
place to its terminal status (`PAID` when the ticket commit succeeded). -/
theorem order_created_at_checkout_mutated_by_webhook
    (db : SrvDb) (cls email tid gid : String) (goodie_ok : Bool)
    (oid psid url : String) (now : Int) (price : Nat)
    (hemail : is_valid_email email = true)
    (hcls : ticketPrice cls = some price)
    (db2 : SrvDb) (psid2 : String) (idem : Option String) (gg : Bool)
    (bookR : String × String × Bool × Bool) (code : String) (now2 : Int)
    (order : OrderRow) (hfound : findOrderByPsid db2 psid2 = some order)
    (hgate : (order.id ++ ":" ++ psid2) ∉ db2.fulfillKeys)
    (hnv : integrityViolation db2 idem (order.id ++ ":" ++ psid2) = false) :
    (∃ row, (create_checkout db cls email (tid, gid, true, goodie_ok)
        oid psid url now).db.orders = db.orders ++ [row] ∧
      row.status = "PENDING" ∧ row.id = oid) ∧
    (payments_webhook_sql db2 ("succeeded") psid2 idem (true, gg) bookR
        code now2).1.orders =
      db2.orders.map (fun o =>
        if o.id = order.id then
          finalizeOrder order ("succeeded") true gg code now2
        else o) ∧
    ((payments_webhook_sql db2 ("succeeded") psid2 idem (true, gg) bookR
        code now2).1.orders).map (fun o => o.id) =
      db2.orders.map (fun o => o.id) ∧
    (finalizeOrder order ("succeeded") true gg code now2).status =
      "PAID" ∧
    (finalizeOrder order ("succeeded") true gg code now2).id = order.id := by
  have hmut : mutateOrderSucceeded order (true, gg) bookR =
      (order, true, gg) := by
    simp [mutateOrderSucceeded]
  have hviol : ¬(integrityViolation db2 idem (order.id ++ ":" ++ psid2) =
      true) := by
    rw [hnv]
    decide
  have hrun : payments_webhook_sql db2 ("succeeded") psid2 idem (true, gg)
      bookR code now2 =
      ({ db2 with
          eventsSeen := db2.eventsSeen ++ idemInsert idem
          fulfillKeys := db2.fulfillKeys ++ [order.id ++ ":" ++ psid2]
          orders := db2.orders.map (fun o =>
            if o.id = order.id then
              finalizeOrder order ("succeeded") true gg code now2
            else o) },
        WebhookReply.ok false
          (some (finalizeOrder order ("succeeded") true gg code
            now2).status)) := by
    unfold payments_webhook_sql
    rw [hfound]
    dsimp only
    rw [if_neg hgate, if_pos rfl, hmut, if_neg hviol]
  have hfin : (finalizeOrder order ("succeeded") true gg code now2).status =
      "PAID" := by
    simp [finalizeOrder]
  have hfid : (finalizeOrder order ("succeeded") true gg code now2).id =
      order.id := by
    simp [finalizeOrder]
  refine ⟨?_, ?_, ?_, hfin, hfid⟩
  · have hck : (create_checkout db cls email (tid, gid, true, goodie_ok)
        oid psid url now).db.orders =
        db.orders ++ [checkoutOrderRow cls email tid gid goodie_ok oid now] := by
      unfold create_checkout
      rw [hemail, hcls]
      simp
    exact ⟨checkoutOrderRow cls email tid gid goodie_ok oid now, hck, rfl,
      rfl⟩
  · rw [hrun]
  · rw [hrun]
    dsimp only
    rw [List.map_map]
    apply List.map_congr_left
    intro o ho
    show (if o.id = order.id then
      finalizeOrder order ("succeeded") true gg code now2 else o).id = o.id
    by_cases hid : o.id = order.id
    · rw [if_pos hid, hfid, hid]
    · rw [if_neg hid]

/-- Witness for C7's amended theorem at a concrete database: one order
behind one payment session, no gates set. -/
theorem order_created_at_checkout_mutated_by_webhook_witness :
    is_valid_email ("a@x.com") = true ∧
    (∃ row,
      (create_checkout
          { orders := [], sessions := [], fulfillKeys := [], eventsSeen := [] }
          ("A") ("a@x.com") ("11", "22", true, true)
          ("oid1") ("ps1") ("u") 0).db.orders = [] ++ [row] ∧
      row.status = "PENDING" ∧ row.id = "oid1") ∧
    (finalizeOrder wOrderRow ("succeeded") true true ("TCK-1") 7).status =
      "PAID" := by
  have happ := order_created_at_checkout_mutated_by_webhook
    { orders := [], sessions := [], fulfillKeys := [], eventsSeen := [] }
    ("A") ("a@x.com") ("11") ("22") true ("oid1") ("ps1") ("u") 0 6500
    (by decide) (by decide)
    wDb2 ("ps1") none true ("0", "0", false, false) ("TCK-1") 7
    wOrderRow (by decide) (by decide) (by decide)
  exact ⟨by decide, happ.1, happ.2.2.2.1⟩

/-- **C10** — Unknown payment session: both webhook paths answer `404` and
change nothing when the `psid` has no stored session, whatever the
contents of the fulfillment gates and event keys — the session lookup
precedes every idempotency gate, so a redelivery whose session record is
gone gets `404`, not an idempotent `200`. -/
theorem webhook_unknown_psid_404
    (db : SrvDb) (kind psid : String) (idem : Option String)
    (cr : Bool × Bool) (br : String × String × Bool × Bool) (code : String)
    (now : Int)
    (hmiss : db.sessions.find? (fun ps => ps.id = psid) = none)
    (r : RedisDb)
    (hmiss2 : r.psHashes.find? (fun p => p.1 = psid) = none) :
    payments_webhook_sql db kind psid idem cr br code now =
      (db, WebhookReply.httpError 404
        "order not found for payment_session_id") ∧
    payments_webhook_redis_guard r psid = WebhookGuardOutcome.notFound404 := by
  constructor
  · unfold payments_webhook_sql findOrderByPsid
    rw [hmiss]
  · unfold payments_webhook_redis_guard
    rw [hmiss2]

/-- Witness for C10: stores that still hold a fulfillment gate for the
psid, but no session record — the reply is still `404`. -/
theorem webhook_unknown_psid_404_witness :
    wGateDb.sessions.find? (fun ps => ps.id = ("ps1")) = none ∧
    payments_webhook_sql wGateDb ("payment.succeeded") ("ps1") none
        (true, true) ("0", "0", false, false) ("c") 0 =
      (wGateDb,
        WebhookReply.httpError 404
          "order not found for payment_session_id") ∧
    payments_webhook_redis_guard wGateRedisDb ("ps1") =
      WebhookGuardOutcome.notFound404 :=
  ⟨by decide,
    (webhook_unknown_psid_404 wGateDb ("payment.succeeded") ("ps1") none
      (true, true) ("0", "0", false, false) ("c") 0 (by decide)
      wGateRedisDb (by decide)).1,
    (webhook_unknown_psid_404 wGateDb ("payment.succeeded") ("ps1") none
      (true, true) ("0", "0", false, false) ("c") 0 (by decide)
      wGateRedisDb (by decide)).2⟩

/-- **C8** — Batcher index mapping, evaluated at the failing input: two
two-transfer submissions are coalesced into one batch of four and the
ledger reports a failure at batch index 2 (the second submission's first
transfer).  The resolution logic hands the second caller the unchanged
error object with `index = 2` — the global batch offset — while the
spec's local index space for that caller is `[some (index 0), none]`; the
caller's `index == 0 / index == 1` reading therefore sees no failure at
all. -/
theorem batcher_resolves_global_indices :
    resolveCompletions 4 [{ index := 2 }] [(0, 2), (2, 2)] =
      [[], [{ index := 2 }]] ∧
    specLocalFailures [{ index := 2 }] 2 2 =
      [some { index := 0 }, none] ∧
    resolveOne (fullResults 4 [{ index := 2 }]) 2 2 ≠
      (specLocalFailures [{ index := 2 }] 2 2).filterMap id ∧
    callerFlags (resolveOne (fullResults 4 [{ index := 2 }]) 2 2) =
      (true, true) ∧
    callerFlags ((specLocalFailures [{ index := 2 }] 2 2).filterMap id) =
      (false, true) := by
  refine ⟨?_, ?_, ?_, ?_, ?_⟩ <;> decide

/-- **C9** — `commit_order` with `try_goodie = false`: in the TigerBeetle
backend the submitted batch is just the single ticket post (no goodie
post) and `gets_goodie` is `false`; in the postgres backend the goodie
hold id is discarded, only the ticket hold is updated and `gets_goodie`
is `false`. -/
theorem commit_order_no_goodie_when_not_requested
    (s : AcctState) (th gh : Option Nat) (now : Int)
    (idp idpg tid gid : Nat) (cls : String) (qty : Nat)
    (errs : List TbError) (hcls : cls = ("A") ∨ cls = ("B")) :
    (∃ ts gt, commit_order_tb idp idpg tid gid cls qty false errs =
        some (ts, gt, false) ∧
      ts.length = 1 ∧ ∀ t ∈ ts, t.pending_id = tid) ∧
    (commit_order s th gh false now).1.2 = false ∧
    (commit_order s th gh false now).2 = (optPost s th now).2 := by
  refine ⟨?_, rfl, rfl⟩
  have hne : ¬(cls ≠ ("A") ∧ cls ≠ ("B")) := by
    rcases hcls with h | h <;> simp [h]
  refine ⟨[ticketPostTransfer idp tid cls qty],
    !(errs.any (fun e => e.index = 0)), ?_, rfl, ?_⟩
  · unfold commit_order_tb
    rw [if_neg hne]
    rfl
  · intro t ht
    simp only [List.mem_singleton] at ht
    rw [ht]
    rfl

/-- Witness for C9 at concrete arguments: a class-A commit with the goodie
declined and one reported error at index 1. -/
theorem commit_order_no_goodie_when_not_requested_witness :
    (("A") = ("A") ∨ ("A") = ("B")) ∧
    (∃ ts gt,
      commit_order_tb 7 8 100 200 ("A") 1 false [{ index := 1 }] =
        some (ts, gt, false) ∧
      ts.length = 1 ∧ ∀ t ∈ ts, t.pending_id = 100) ∧
    (commit_order cexReservedState (some 0) (some 1) false 0).1.2 = false :=
  ⟨Or.inl rfl,
    (commit_order_no_goodie_when_not_requested cexReservedState (some 0)
      (some 1) 0 7 8 100 200 ("A") 1 [{ index := 1 }] (Or.inl rfl)).1,
    (commit_order_no_goodie_when_not_requested cexReservedState (some 0)
      (some 1) 0 7 8 100 200 ("A") 1 [{ index := 1 }] (Or.inl rfl)).2.1⟩

end TigerFans

